import Mathlib

/-!
Verification development for the startup-express request-validation and
error-handling core. The definitions below are a shallow embedding of
src/types.ts (AppError, ErrorCode, response envelopes), src/config.ts,
src/errorHandler.ts (notFoundHandler, errorHandler, createPaginationMeta)
and src/validators/index.ts (validate, validateAll). Logging side effects
are not modelled; the clock is passed in as the pre-rendered ISO string
that new Date().toISOString() produces at response time.
-/

namespace StartupExpress

/-- JSON-like runtime values, modelling the JavaScript values that flow
through the request pipeline: request sections, error detail payloads and
response bodies. Numbers are modelled as integers, which covers every
numeric value the verified code paths inspect. -/
inductive Json where
  | null : Json
  | bool (b : Bool) : Json
  | num (n : Int) : Json
  | str (s : String) : Json
  | arr (items : List Json) : Json
  | obj (fields : List (String × Json)) : Json

/-- JavaScript truthiness of the modelled values: null, false, 0 and the
empty string are falsy; every array and object is truthy. -/
def Json.truthy : Json → Bool
  | .null => false
  | .bool b => b
  | .num n => n != 0
  | .str s => s != ""
  | .arr _ => true
  | .obj _ => true

/-- The keys of an object literal, in insertion order; non-objects have
no keys. -/
def Json.keys : Json → List String
  | .obj fields => fields.map Prod.fst
  | _ => []

/-- One issue of a Zod validation failure, as read by the formatting code:
a path into the value, a human message and a Zod issue code. -/
structure ZodIssue where
  path : List String
  message : String
  code : String
deriving Repr, DecidableEq

/-- The closed error-code enum of src/types.ts. -/
inductive ErrorCode where
  | BAD_REQUEST
  | UNAUTHORIZED
  | FORBIDDEN
  | NOT_FOUND
  | CONFLICT
  | VALIDATION_ERROR
  | RATE_LIMIT_EXCEEDED
  | INTERNAL_SERVER_ERROR
  | SERVICE_UNAVAILABLE
  | DATABASE_ERROR
deriving Repr, DecidableEq

/-- The string value of each ErrorCode enum member (the enum is a string
enum in src/types.ts). -/
def ErrorCode.toStr : ErrorCode → String
  | .BAD_REQUEST => "BAD_REQUEST"
  | .UNAUTHORIZED => "UNAUTHORIZED"
  | .FORBIDDEN => "FORBIDDEN"
  | .NOT_FOUND => "NOT_FOUND"
  | .CONFLICT => "CONFLICT"
  | .VALIDATION_ERROR => "VALIDATION_ERROR"
  | .RATE_LIMIT_EXCEEDED => "RATE_LIMIT_EXCEEDED"
  | .INTERNAL_SERVER_ERROR => "INTERNAL_SERVER_ERROR"
  | .SERVICE_UNAVAILABLE => "SERVICE_UNAVAILABLE"
  | .DATABASE_ERROR => "DATABASE_ERROR"

/-- The instanceof shape of a thrown error as discriminated by
errorHandler: a ZodError carrying its list of issues, an AppError carrying
statusCode, errorCode and details (src/types.ts), or a plain error that is
neither and is recognised only through its name and code properties. -/
inductive ErrShape where
  | zodError (issues : List ZodIssue)
  | appError (statusCode : Nat) (errorCode : ErrorCode) (details : Option Json)
  | plain : ErrShape

/-- A JavaScript error value as inspected by the error handler. Every
error exposes a name, a message, an optional code property and an optional
stack string, in addition to its instanceof shape. -/
structure JsError where
  name : String
  message : String
  code : Option Json
  stack : Option String
  shape : ErrShape

/-- new AppError(message, statusCode, errorCode, details) from
src/types.ts. The subclass does not override name, so name is the Error
default. The runtime-captured stack trace is not modelled and is taken as
absent; no verified claim inspects the stack of an AppError. -/
def AppError.build (message : String) (statusCode : Nat) (errorCode : ErrorCode)
    (details : Option Json) : JsError :=
  { name := "Error", message := message, code := none, stack := none,
    shape := .appError statusCode errorCode details }

/-- The AppError.notFound static factory from src/types.ts: status 404,
errorCode NOT_FOUND. -/
def AppError.notFound (message : String) (details : Option Json) : JsError :=
  AppError.build message 404 .NOT_FOUND details

/-- The (statusCode, message, errorCode, details) tuple that the error
handler computes before assembling the response. -/
structure Classification where
  statusCode : Nat
  message : String
  errorCode : ErrorCode
  details : Option Json

/-- The strict-equality test code === 11000 on the code property of an
error (absent code compares unequal). -/
def isDuplicateKeyCode : Option Json → Bool
  | some (Json.num n) => n == 11000
  | _ => false

/-- The strict-equality test code === "ECONNREFUSED" on the code property
of an error (absent code compares unequal). -/
def isEconnRefusedCode : Option Json → Bool
  | some (Json.str s) => s == "ECONNREFUSED"
  | _ => false

/-- The per-issue formatting shared by the ZodError branch of errorHandler
and by the validate middleware: field is the dotted path, plus message and
code. -/
def formatZodIssue (e : ZodIssue) : Json :=
  Json.obj [("field", Json.str (String.intercalate "." e.path)),
            ("message", Json.str e.message),
            ("code", Json.str e.code)]

/-- The classification chain of errorHandler (src/errorHandler.ts lines
22-68): defaults 500 / generic message / INTERNAL_SERVER_ERROR, then the
first matching branch wins: ZodError, AppError passthrough, the three name
patterns, the two code patterns, and finally the fallthrough that keeps the
original message when it is truthy. -/
def classify (err : JsError) : Classification :=
  match err.shape with
  | .zodError issues =>
      { statusCode := 400, message := "Validation failed",
        errorCode := .VALIDATION_ERROR,
        details := some (Json.arr (issues.map formatZodIssue)) }
  | .appError sc ec det =>
      { statusCode := sc, message := err.message, errorCode := ec, details := det }
  | .plain =>
      if err.name = "ValidationError" then
        { statusCode := 400, message := "Validation Error",
          errorCode := .VALIDATION_ERROR, details := none }
      else if err.name = "UnauthorizedError" ∨ err.name = "JsonWebTokenError" then
        { statusCode := 401, message := "Unauthorized",
          errorCode := .UNAUTHORIZED, details := none }
      else if err.name = "CastError" then
        { statusCode := 400, message := "Invalid ID format",
          errorCode := .BAD_REQUEST, details := none }
      else if isDuplicateKeyCode err.code then
        { statusCode := 409, message := "Duplicate field value",
          errorCode := .CONFLICT, details := none }
      else if isEconnRefusedCode err.code then
        { statusCode := 503, message := "Service unavailable",
          errorCode := .SERVICE_UNAVAILABLE, details := none }
      else
        { statusCode := 500,
          message := if err.message = "" then "Something went wrong" else err.message,
          errorCode := .INTERNAL_SERVER_ERROR, details := none }

/-- The environment configuration of src/config.ts: env holds the
NODE_ENV value (defaulted upstream to development when unset) and the
three mode flags are string comparisons on env. -/
structure Config where
  env : String
deriving Repr, DecidableEq

/-- config.isProduction from src/config.ts. -/
def Config.isProduction (c : Config) : Bool := decide (c.env = "production")

/-- config.isDevelopment from src/config.ts. -/
def Config.isDevelopment (c : Config) : Bool := decide (c.env = "development")

/-- config.isTest from src/config.ts. -/
def Config.isTest (c : Config) : Bool := decide (c.env = "test")

/-- The four request sections a schema can be attached to
(ValidationSource in src/validators/index.ts). -/
inductive Source where
  | body
  | query
  | params
  | headers
deriving Repr, DecidableEq

/-- The string key under which each source appears in the schemas record
passed to validateAll. -/
def sourceName : Source → String
  | .body => "body"
  | .query => "query"
  | .params => "params"
  | .headers => "headers"

/-- The slice of an Express request that the verified code reads: the four
mutable sections, the request id assigned by upstream middleware (absent
when none was assigned) and the original URL consulted by
notFoundHandler. -/
structure Req where
  body : Json
  query : Json
  params : Json
  headers : Json
  requestId : Option String
  originalUrl : String

/-- Reading a request section (the req[source] access). -/
def Req.get (req : Req) : Source → Json
  | .body => req.body
  | .query => req.query
  | .params => req.params
  | .headers => req.headers

/-- Replacing a request section in place (the req[source] = validated
assignment). -/
def Req.set (req : Req) : Source → Json → Req
  | .body, v => { req with body := v }
  | .query, v => { req with query := v }
  | .params, v => { req with params := v }
  | .headers, v => { req with headers := v }

/-- The ErrorResponse envelope of src/types.ts as assembled by
errorHandler. Optional fields model properties that are only sometimes
set on the object (a field holding none is absent from the serialized
JSON). -/
structure ErrorResponse where
  success : Bool
  message : String
  errorCode : String
  requestId : Option String
  timestamp : String
  errors : Option Json
  stack : Option String

/-- The HTTP status and JSON body written by res.status(...).json(...). -/
structure HandlerResult where
  status : Nat
  body : ErrorResponse

/-- The errorHandler middleware of src/errorHandler.ts: classify the
error, then assemble the envelope. nowIso stands for the ISO-8601 string
that new Date().toISOString() renders at response time. The errors field
is set only when details is truthy; the stack field is set only when
config.isDevelopment holds and the error carries a truthy stack. -/
def errorHandler (config : Config) (err : JsError) (req : Req)
    (nowIso : String) : HandlerResult :=
  let c := classify err
  { status := c.statusCode,
    body :=
      { success := false,
        message := c.message,
        errorCode := c.errorCode.toStr,
        requestId := req.requestId,
        timestamp := nowIso,
        errors :=
          match c.details with
          | some d => if d.truthy then some d else none
          | none => none,
        stack :=
          if config.isDevelopment then
            match err.stack with
            | some s => if s = "" then none else some s
            | none => none
          else none } }

/-- What a middleware does with a request: call next() with a possibly
mutated request, call next(error), or write one response and return. -/
inductive MwOutcome where
  | next (req : Req)
  | nextErr (req : Req) (err : JsError)
  | respond (req : Req) (status : Nat) (body : Json)

/-- The notFoundHandler of src/errorHandler.ts: build an AppError via the
notFound factory with the original URL appended to the fixed prefix, and
forward it with next(error) into the error handler. -/
def notFoundHandler (req : Req) : MwOutcome :=
  .nextErr req (AppError.notFound ("Route not found: " ++ req.originalUrl) none)

/-- The outcome of schema.parse(data): a normalized value, a thrown
ZodError carrying issues, or a thrown non-Zod exception. -/
inductive ParseResult where
  | ok (value : Json)
  | zodFail (issues : List ZodIssue)
  | threw (err : JsError)

/-- A Zod schema, opaque except for its parse behaviour. -/
abbrev Schema := Json → ParseResult

/-- The single-source validate middleware of src/validators/index.ts:
parse the section; on success replace it and continue; on a ZodError
respond 400 with the formatted issue list; on any other exception forward
it with next(error). -/
def validate (schema : Schema) (source : Source) (req : Req) : MwOutcome :=
  match schema (req.get source) with
  | .ok validated => .next (req.set source validated)
  | .zodFail issues =>
      .respond req 400 (Json.obj
        [("success", Json.bool false),
         ("message", Json.str "Validation failed"),
         ("errors", Json.arr (issues.map formatZodIssue))])
  | .threw e => .nextErr req e

/-- One aggregated violation collected by validateAll: the originating
source, the dotted field path and the message. -/
structure MultiViolation where
  source : Source
  field : String
  message : String
deriving Repr, DecidableEq

/-- The violations that one failing source contributes to the aggregate
list of validateAll, in the Zod issue order. -/
def tagViolations (s : Source) (issues : List ZodIssue) : List MultiViolation :=
  issues.map fun e =>
    { source := s, field := String.intercalate "." e.path, message := e.message }

/-- The loop of validateAll over the (source, schema) entries: a success
replaces the section immediately, a ZodError appends its tagged issues to
the aggregate list, and any other exception is swallowed by the inner
catch and contributes nothing. -/
def validateAllLoop : List (Source × Schema) → Req → List MultiViolation →
    Req × List MultiViolation
  | [], req, errs => (req, errs)
  | (s, schema) :: rest, req, errs =>
    match schema (req.get s) with
    | .ok validated => validateAllLoop rest (req.set s validated) errs
    | .zodFail issues => validateAllLoop rest req (errs ++ tagViolations s issues)
    | .threw _ => validateAllLoop rest req errs

/-- The object literal pushed for each aggregated violation: exactly the
source, field and message properties. -/
def multiViolationJson (v : MultiViolation) : Json :=
  Json.obj [("source", Json.str (sourceName v.source)),
            ("field", Json.str v.field),
            ("message", Json.str v.message)]

/-- The 400 body that validateAll sends when the aggregate list is
non-empty. -/
def validateAllBody (errs : List MultiViolation) : Json :=
  Json.obj [("success", Json.bool false),
            ("message", Json.str "Validation failed"),
            ("errors", Json.arr (errs.map multiViolationJson))]

/-- The validateAll middleware of src/validators/index.ts: run the loop
over all entries, then respond once with a 400 when any violations were
collected, and continue otherwise. -/
def validateAll (schemas : List (Source × Schema)) (req : Req) : MwOutcome :=
  let r := validateAllLoop schemas req []
  if r.2.isEmpty then .next r.1 else .respond r.1 400 (validateAllBody r.2)

/-- The PaginationMeta record of src/types.ts. -/
structure PaginationMeta where
  page : Nat
  limit : Nat
  total : Nat
  totalPages : Nat
  hasNext : Bool
  hasPrev : Bool
deriving Repr, DecidableEq

/-- Math.ceil(total / limit) on natural inputs: for limit > 0 this equals
the exact rational ceiling of total / limit. -/
def mathCeilDiv (total limit : Nat) : Nat := (total + limit - 1) / limit

/-- createPaginationMeta from the response-helper module. -/
def createPaginationMeta (page limit total : Nat) : PaginationMeta :=
  { page := page, limit := limit, total := total,
    totalPages := mathCeilDiv total limit,
    hasNext := decide (page < mathCeilDiv total limit),
    hasPrev := decide (1 < page) }

/-- A plain error matches none of the recognised name patterns and none of
the recognised code patterns of the classification chain. -/
def unrecognizedPlain (err : JsError) : Prop :=
  err.shape = .plain ∧
  err.name ≠ "ValidationError" ∧
  err.name ≠ "UnauthorizedError" ∧
  err.name ≠ "JsonWebTokenError" ∧
  err.name ≠ "CastError" ∧
  isDuplicateKeyCode err.code = false ∧
  isEconnRefusedCode err.code = false

/-- A sample request used to instantiate the verified statements. -/
def sampleReq : Req :=
  { body := Json.obj [], query := Json.obj [], params := Json.obj [],
    headers := Json.obj [], requestId := some "req-1",
    originalUrl := "/api/users/42" }

/-- The production configuration (NODE_ENV=production). -/
def productionConfig : Config := { env := "production" }

/-- The development configuration (NODE_ENV=development). -/
def developmentConfig : Config := { env := "development" }

/-- The test configuration (NODE_ENV=test), a non-production mode that is
not the development mode. -/
def testConfig : Config := { env := "test" }

/-- A plain unrecognised failure with message boom, as in the spec. -/
def boomError : JsError :=
  { name := "Error", message := "boom", code := none,
    stack := some "Error: boom", shape := .plain }

/-- An AppError whose details value is the falsy boolean false. -/
def falsyDetailsError : JsError :=
  AppError.build "flag check failed" 400 .BAD_REQUEST (some (Json.bool false))

/-- A schema that rejects every value with one issue at path id. -/
def failParamsSchema : Schema :=
  fun _ => .zodFail [{ path := ["id"], message := "Required", code := "invalid_type" }]

/-- A schema that rejects every value with one issue at path name. -/
def failBodySchema : Schema :=
  fun _ => .zodFail
    [{ path := ["name"], message := "Expected string, received number",
       code := "invalid_type" }]

/-- A schema that accepts every value and normalizes it to a fixed
object. -/
def okBodySchema : Schema := fun _ => .ok (Json.obj [("name", Json.str "john")])

/-- A schema whose parse throws a non-Zod exception. -/
def throwingSchema : Schema :=
  fun _ => .threw
    { name := "TypeError", message := "Cannot read properties of undefined",
      code := none, stack := none, shape := .plain }

/-- Replacing a section and reading it back yields the stored value. -/
theorem Req.get_set_self (req : Req) (s : Source) (v : Json) :
    (req.set s v).get s = v := by
  cases s <;> rfl

/-- Production mode and development mode are mutually exclusive. -/
theorem Config.isDevelopment_eq_false_of_isProduction (c : Config)
    (h : c.isProduction = true) : c.isDevelopment = false := by
  unfold Config.isProduction at h
  unfold Config.isDevelopment
  simp only [decide_eq_true_eq] at h
  simp [h]

/-- For a positive limit, the natural-number embedding of
Math.ceil(total / limit) is the exact rational ceiling. -/
theorem mathCeilDiv_eq_rat_ceil (t l : Nat) (h : 0 < l) :
    mathCeilDiv t l = ⌈(t : ℚ) / (l : ℚ)⌉₊ := by
  have hl : (0 : ℚ) < (l : ℚ) := by exact_mod_cast h
  have h1 : mathCeilDiv t l = t ⌈/⌉ l := rfl
  rw [h1]
  apply le_antisymm
  · rw [ceilDiv_le_iff_le_smul h, smul_eq_mul]
    have h2 := Nat.le_ceil ((t : ℚ) / (l : ℚ))
    rw [div_le_iff₀ hl] at h2
    exact_mod_cast h2.trans_eq (mul_comm _ _)
  · rw [Nat.ceil_le, div_le_iff₀ hl]
    have h2 := le_smul_ceilDiv (α := ℕ) (b := t) h
    rw [smul_eq_mul] at h2
    calc (t : ℚ) ≤ ((l * (t ⌈/⌉ l) : ℕ) : ℚ) := by exact_mod_cast h2
    _ = (((t ⌈/⌉ l) : ℕ) : ℚ) * (l : ℚ) := by push_cast; ring

/-- Claim C3: the classifier passes an AppError through with exactly its
own statusCode, message, errorCode and details, regardless of the name or
code properties the object also carries (so the AppError rule takes
priority over every name and code pattern rule); in particular the
AppError built by the notFound factory with message User not found and a
userId detail classifies to 404 / NOT_FOUND with that message and those
details. -/
theorem appError_passthrough (sc : Nat) (ec : ErrorCode) (det : Option Json)
    (name msg : String) (code : Option Json) (stack : Option String) :
    classify { name := name, message := msg, code := code, stack := stack,
               shape := .appError sc ec det } =
      { statusCode := sc, message := msg, errorCode := ec, details := det }
    ∧ classify (AppError.notFound "User not found"
        (some (Json.obj [("userId", Json.str "123")]))) =
      { statusCode := 404, message := "User not found",
        errorCode := .NOT_FOUND,
        details := some (Json.obj [("userId", Json.str "123")]) } :=
  ⟨rfl, rfl⟩

/-- Claim C7: for every unmatched request, notFoundHandler forwards (via
next) an AppError with status 404, errorCode NOT_FOUND and message equal
to the fixed prefix concatenated with the original request URL, and the
centralized handler turns exactly that error into a 404 envelope of the
uniform shape. -/
theorem notFound_pipeline (req : Req) (cfg : Config) (now : String) :
    notFoundHandler req =
      .nextErr req (AppError.notFound ("Route not found: " ++ req.originalUrl) none)
    ∧ (errorHandler cfg
        (AppError.notFound ("Route not found: " ++ req.originalUrl) none)
        req now).status = 404
    ∧ (errorHandler cfg
        (AppError.notFound ("Route not found: " ++ req.originalUrl) none)
        req now).body.errorCode = "NOT_FOUND"
    ∧ (errorHandler cfg
        (AppError.notFound ("Route not found: " ++ req.originalUrl) none)
        req now).body.message = "Route not found: " ++ req.originalUrl
    ∧ (errorHandler cfg
        (AppError.notFound ("Route not found: " ++ req.originalUrl) none)
        req now).body.success = false
    ∧ (errorHandler cfg
        (AppError.notFound ("Route not found: " ++ req.originalUrl) none)
        req now).body.requestId = req.requestId
    ∧ (errorHandler cfg
        (AppError.notFound ("Route not found: " ++ req.originalUrl) none)
        req now).body.timestamp = now :=
  ⟨rfl, rfl, rfl, rfl, rfl, rfl, rfl⟩

/-- Claim C8: for every page, limit and total with positive limit,
createPaginationMeta echoes the inputs, computes totalPages as the exact
rational ceiling of total over limit, and derives hasNext and hasPrev by
the stated comparisons; the two spec examples evaluate as stated. -/
theorem createPaginationMeta_spec (page limit total : Nat) (h : 0 < limit) :
    (createPaginationMeta page limit total).page = page
    ∧ (createPaginationMeta page limit total).limit = limit
    ∧ (createPaginationMeta page limit total).total = total
    ∧ (createPaginationMeta page limit total).totalPages
        = ⌈(total : ℚ) / (limit : ℚ)⌉₊
    ∧ (createPaginationMeta page limit total).hasNext
        = decide (page < (createPaginationMeta page limit total).totalPages)
    ∧ (createPaginationMeta page limit total).hasPrev = decide (1 < page)
    ∧ createPaginationMeta 2 10 25 =
        { page := 2, limit := 10, total := 25, totalPages := 3,
          hasNext := true, hasPrev := true }
    ∧ createPaginationMeta 1 10 5 =
        { page := 1, limit := 10, total := 5, totalPages := 1,
          hasNext := false, hasPrev := false } :=
  ⟨rfl, rfl, rfl, mathCeilDiv_eq_rat_ceil total limit h, rfl, rfl, by decide, by decide⟩

/-- Witness for createPaginationMeta_spec at page 2, limit 10, total 25. -/
theorem createPaginationMeta_spec_witness :
    0 < 10
    ∧ ((createPaginationMeta 2 10 25).page = 2
       ∧ (createPaginationMeta 2 10 25).limit = 10
       ∧ (createPaginationMeta 2 10 25).total = 25
       ∧ (createPaginationMeta 2 10 25).totalPages = ⌈(25 : ℚ) / (10 : ℚ)⌉₊
       ∧ (createPaginationMeta 2 10 25).hasNext
           = decide (2 < (createPaginationMeta 2 10 25).totalPages)
       ∧ (createPaginationMeta 2 10 25).hasPrev = decide (1 < 2)
       ∧ createPaginationMeta 2 10 25 =
           { page := 2, limit := 10, total := 25, totalPages := 3,
             hasNext := true, hasPrev := true }
       ∧ createPaginationMeta 1 10 5 =
           { page := 1, limit := 10, total := 5, totalPages := 1,
             hasNext := false, hasPrev := false }) :=
  ⟨by decide, createPaginationMeta_spec 2 10 25 (by decide)⟩

/-- Claim C1: counterexample. A plain failure with message boom and no
recognized name or code, classified in production mode, keeps its own
message boom in the response; the claimed generic message Something went
wrong does not appear, because the fallthrough branch uses the original
message unconditionally, with no production check. Moreover in the test
mode, which is non-production, the same error carries a stack yet the
response still has no stack field, because the stack is gated on the
development mode rather than on non-production. -/
theorem unrecognized_production_counterexample :
    (errorHandler productionConfig boomError sampleReq
        "2026-01-01T00:00:00.000Z").body.message = "boom"
    ∧ "boom" ≠ "Something went wrong"
    ∧ Config.isProduction testConfig = false
    ∧ boomError.stack = some "Error: boom"
    ∧ (errorHandler testConfig boomError sampleReq
        "2026-01-01T00:00:00.000Z").body.stack = none :=
  ⟨rfl, by decide, by decide, rfl, rfl⟩

/-- Claim C1 (amended): for every unrecognized plain failure, in every
mode, classification yields statusCode 500 and the failure keeps its own
message whenever that message is non-empty (the generic Something went
wrong appears only for an empty message); the stack field is absent
whenever the designated development mode is off (in particular in
production), and is included exactly when development mode is on and the
error carries a non-empty stack. -/
theorem unrecognized_fallback (cfg : Config) (err : JsError) (req : Req)
    (now : String) (h : unrecognizedPlain err) :
    (errorHandler cfg err req now).status = 500
    ∧ (errorHandler cfg err req now).body.message =
        (if err.message = "" then "Something went wrong" else err.message)
    ∧ (errorHandler cfg err req now).body.errorCode = "INTERNAL_SERVER_ERROR"
    ∧ (cfg.isDevelopment = false → (errorHandler cfg err req now).body.stack = none)
    ∧ (cfg.isProduction = true → (errorHandler cfg err req now).body.stack = none)
    ∧ (∀ s : String, cfg.isDevelopment = true → err.stack = some s → s ≠ "" →
        (errorHandler cfg err req now).body.stack = some s) := by
  obtain ⟨hsh, h1, h2, h3, h4, h5, h6⟩ := h
  have hc : classify err =
      { statusCode := 500,
        message := if err.message = "" then "Something went wrong" else err.message,
        errorCode := .INTERNAL_SERVER_ERROR, details := none } := by
    unfold classify
    rw [hsh]
    simp [h1, h2, h3, h4, h5, h6]
  refine ⟨?_, ?_, ?_, ?_, ?_, ?_⟩
  · simp [errorHandler, hc]
  · simp [errorHandler, hc]
  · simp [errorHandler, hc, ErrorCode.toStr]
  · intro hdev
    simp [errorHandler, hdev]
  · intro hprod
    simp [errorHandler, Config.isDevelopment_eq_false_of_isProduction cfg hprod]
  · intro s hdev hstack hs
    simp [errorHandler, hdev, hstack, hs]

/-- Witness for unrecognized_fallback on the boom failure in production
mode. -/
theorem unrecognized_fallback_witness :
    unrecognizedPlain boomError
    ∧ ((errorHandler productionConfig boomError sampleReq "t").status = 500
       ∧ (errorHandler productionConfig boomError sampleReq "t").body.message =
           (if boomError.message = "" then "Something went wrong" else boomError.message)
       ∧ (errorHandler productionConfig boomError sampleReq "t").body.errorCode
           = "INTERNAL_SERVER_ERROR"
       ∧ (Config.isDevelopment productionConfig = false →
           (errorHandler productionConfig boomError sampleReq "t").body.stack = none)
       ∧ (Config.isProduction productionConfig = true →
           (errorHandler productionConfig boomError sampleReq "t").body.stack = none)
       ∧ (∀ s : String, Config.isDevelopment productionConfig = true →
           boomError.stack = some s → s ≠ "" →
           (errorHandler productionConfig boomError sampleReq "t").body.stack = some s)) :=
  ⟨⟨rfl, by decide, by decide, by decide, by decide, rfl, rfl⟩,
   unrecognized_fallback productionConfig boomError sampleReq "t"
     ⟨rfl, by decide, by decide, by decide, by decide, rfl, rfl⟩⟩

/-- Claim C6: counterexample. An AppError whose details value is the
falsy boolean false is classified with details present, yet the envelope
carries no errors field, because the handler tests the details value for
truthiness rather than for presence. -/
theorem envelope_errors_iff_counterexample :
    (classify falsyDetailsError).details = some (Json.bool false)
    ∧ (errorHandler developmentConfig falsyDetailsError sampleReq
        "2026-01-01T00:00:00.000Z").body.errors = none :=
  ⟨rfl, rfl⟩

/-- Claim C6 (amended): every envelope built by the centralized handler
has success false, the classified message and errorCode, the request id
propagated from the request (absent when none was assigned), and the
response-time clock string as timestamp; the errors field holds d exactly
when the classification produced details d and d is truthy (a falsy
details value is dropped); the stack field is absent whenever development
mode is off, in particular in production. -/
theorem envelope_shape (cfg : Config) (err : JsError) (req : Req) (now : String) :
    (errorHandler cfg err req now).body.success = false
    ∧ (errorHandler cfg err req now).body.message = (classify err).message
    ∧ (errorHandler cfg err req now).body.errorCode = (classify err).errorCode.toStr
    ∧ (errorHandler cfg err req now).body.requestId = req.requestId
    ∧ (errorHandler cfg err req now).body.timestamp = now
    ∧ (errorHandler cfg err req now).status = (classify err).statusCode
    ∧ (∀ d : Json, (errorHandler cfg err req now).body.errors = some d ↔
        ((classify err).details = some d ∧ d.truthy = true))
    ∧ (cfg.isDevelopment = false → (errorHandler cfg err req now).body.stack = none)
    ∧ (cfg.isProduction = true → (errorHandler cfg err req now).body.stack = none) := by
  refine ⟨rfl, rfl, rfl, rfl, rfl, rfl, ?_, ?_, ?_⟩
  · intro d
    show (match (classify err).details with
          | some d0 => if d0.truthy then some d0 else none
          | none => none) = some d ↔ _
    cases hd : (classify err).details with
    | none => simp
    | some d0 =>
      by_cases ht : d0.truthy
      · simp only [ht, if_true, Option.some.injEq]
        constructor
        · rintro rfl
          exact ⟨rfl, ht⟩
        · rintro ⟨hd2, _⟩
          exact hd2
      · simp only [ht, if_false]
        constructor
        · rintro h0
          exact absurd h0 (by simp)
        · rintro ⟨hd2, ht2⟩
          rw [Option.some.inj hd2] at ht
          exact absurd ht2 ht
  · intro hdev
    simp [errorHandler, hdev]
  · intro hprod
    simp [errorHandler, Config.isDevelopment_eq_false_of_isProduction cfg hprod]

/-- Claim C5: when the section fails its schema, the single-source
validate middleware responds immediately with a 400 and the local
envelope (success false, message Validation failed, errors with one entry
per issue carrying the dotted field path, the message and the Zod code),
does not invoke the next pipeline stage, and sets no errorCode property
on this direct response. -/
theorem validate_short_circuit (sch : Schema) (s : Source) (req : Req)
    (issues : List ZodIssue) (h : sch (req.get s) = .zodFail issues) :
    validate sch s req = .respond req 400 (Json.obj
      [("success", Json.bool false),
       ("message", Json.str "Validation failed"),
       ("errors", Json.arr (issues.map formatZodIssue))])
    ∧ (∀ r2 : Req, validate sch s req ≠ .next r2)
    ∧ (Json.obj
      [("success", Json.bool false),
       ("message", Json.str "Validation failed"),
       ("errors", Json.arr (issues.map formatZodIssue))]).keys
        = ["success", "message", "errors"]
    ∧ "errorCode" ∉ (Json.obj
      [("success", Json.bool false),
       ("message", Json.str "Validation failed"),
       ("errors", Json.arr (issues.map formatZodIssue))]).keys
    ∧ ∀ e : ZodIssue, formatZodIssue e = Json.obj
        [("field", Json.str (String.intercalate "." e.path)),
         ("message", Json.str e.message),
         ("code", Json.str e.code)] := by
  have heq : validate sch s req = .respond req 400 (Json.obj
      [("success", Json.bool false),
       ("message", Json.str "Validation failed"),
       ("errors", Json.arr (issues.map formatZodIssue))]) := by
    unfold validate
    rw [h]
  refine ⟨heq, ?_, rfl, by simp [Json.keys], fun e => rfl⟩
  intro r2 hcontra
  rw [heq] at hcontra
  exact MwOutcome.noConfusion hcontra

/-- Witness for validate_short_circuit on the always-failing params
schema. -/
theorem validate_short_circuit_witness :
    failParamsSchema (sampleReq.get .params) =
      .zodFail [{ path := ["id"], message := "Required", code := "invalid_type" }]
    ∧ (validate failParamsSchema .params sampleReq = .respond sampleReq 400 (Json.obj
        [("success", Json.bool false),
         ("message", Json.str "Validation failed"),
         ("errors", Json.arr
           ([{ path := ["id"], message := "Required",
               code := "invalid_type" }].map formatZodIssue))])
       ∧ (∀ r2 : Req, validate failParamsSchema .params sampleReq ≠ .next r2)
       ∧ (Json.obj
          [("success", Json.bool false),
           ("message", Json.str "Validation failed"),
           ("errors", Json.arr
             ([{ path := ["id"], message := "Required",
                 code := "invalid_type" }].map formatZodIssue))]).keys
            = ["success", "message", "errors"]
       ∧ "errorCode" ∉ (Json.obj
          [("success", Json.bool false),
           ("message", Json.str "Validation failed"),
           ("errors", Json.arr
             ([{ path := ["id"], message := "Required",
                 code := "invalid_type" }].map formatZodIssue))]).keys
       ∧ ∀ e : ZodIssue, formatZodIssue e = Json.obj
           [("field", Json.str (String.intercalate "." e.path)),
            ("message", Json.str e.message),
            ("code", Json.str e.code)]) :=
  ⟨rfl, validate_short_circuit failParamsSchema .params sampleReq
    [{ path := ["id"], message := "Required", code := "invalid_type" }] rfl⟩

/-- validateAll in terms of its loop: one response when the aggregate
list is non-empty, continuation otherwise. -/
theorem validateAll_eq (schemas : List (Source × Schema)) (req : Req) :
    validateAll schemas req =
      if (validateAllLoop schemas req []).2.isEmpty then
        .next (validateAllLoop schemas req []).1
      else
        .respond (validateAllLoop schemas req []).1 400
          (validateAllBody (validateAllLoop schemas req []).2) := rfl

/-- Claim C2: when two sources both fail their schemas, validateAll sends
exactly one 400 response whose body is the fixed envelope with the
aggregate violation list holding the first source's tagged violations
followed by the second source's, in mapping order; violations tagged with
each of the two failing sources are present, and no per-source response
is produced. -/
theorem multi_source_aggregation (s1 s2 : Source) (a b : Schema) (req : Req)
    (issA issB : List ZodIssue)
    (h1 : a (req.get s1) = .zodFail issA)
    (h2 : b (req.get s2) = .zodFail issB)
    (hA : issA ≠ []) (hB : issB ≠ []) :
    validateAll [(s1, a), (s2, b)] req =
      .respond req 400
        (validateAllBody (tagViolations s1 issA ++ tagViolations s2 issB))
    ∧ (∃ v ∈ tagViolations s1 issA ++ tagViolations s2 issB, v.source = s1)
    ∧ (∃ v ∈ tagViolations s1 issA ++ tagViolations s2 issB, v.source = s2) := by
  cases issA with
  | nil => exact absurd rfl hA
  | cons ea esa =>
    cases issB with
    | nil => exact absurd rfl hB
    | cons eb esb =>
      have hloop : validateAllLoop [(s1, a), (s2, b)] req [] =
          (req, ([] ++ tagViolations s1 (ea :: esa)) ++ tagViolations s2 (eb :: esb)) := by
        simp only [validateAllLoop, h1, h2]
      refine ⟨?_, ?_, ?_⟩
      · rw [validateAll_eq, hloop]
        simp [tagViolations]
      · exact ⟨{ source := s1, field := String.intercalate "." ea.path,
                 message := ea.message }, by simp [tagViolations], rfl⟩
      · exact ⟨{ source := s2, field := String.intercalate "." eb.path,
                 message := eb.message }, by simp [tagViolations], rfl⟩

/-- Witness for multi_source_aggregation: params failing one schema and
body failing another on the sample request. -/
theorem multi_source_aggregation_witness :
    failParamsSchema (sampleReq.get .params) =
      .zodFail [{ path := ["id"], message := "Required", code := "invalid_type" }]
    ∧ failBodySchema (sampleReq.get .body) =
      .zodFail [{ path := ["name"], message := "Expected string, received number",
                  code := "invalid_type" }]
    ∧ [{ path := ["id"], message := "Required",
         code := "invalid_type" }] ≠ ([] : List ZodIssue)
    ∧ [{ path := ["name"], message := "Expected string, received number",
         code := "invalid_type" }] ≠ ([] : List ZodIssue)
    ∧ (validateAll [(.params, failParamsSchema), (.body, failBodySchema)] sampleReq =
        .respond sampleReq 400
          (validateAllBody
            (tagViolations .params
              [{ path := ["id"], message := "Required", code := "invalid_type" }]
             ++ tagViolations .body
              [{ path := ["name"], message := "Expected string, received number",
                 code := "invalid_type" }]))
       ∧ (∃ v ∈ tagViolations .params
              [{ path := ["id"], message := "Required", code := "invalid_type" }]
             ++ tagViolations .body
              [{ path := ["name"], message := "Expected string, received number",
                 code := "invalid_type" }], v.source = .params)
       ∧ (∃ v ∈ tagViolations .params
              [{ path := ["id"], message := "Required", code := "invalid_type" }]
             ++ tagViolations .body
              [{ path := ["name"], message := "Expected string, received number",
                 code := "invalid_type" }], v.source = .body)) :=
  ⟨rfl, rfl, by decide, by decide,
   multi_source_aggregation .params .body failParamsSchema failBodySchema sampleReq
     [{ path := ["id"], message := "Required", code := "invalid_type" }]
     [{ path := ["name"], message := "Expected string, received number",
        code := "invalid_type" }]
     rfl rfl (by decide) (by decide)⟩

/-- Claim C4: a source whose parse throws a non-Zod exception is absorbed
silently by the aggregation loop: the loop step contributes no violation
and leaves the state unchanged, continuing with the remaining sources;
and validateAll never forwards any error into the surrounding
error-handling pipeline (its outcome is never a next-with-error). -/
theorem nonzod_exception_absorbed (s : Source) (sch : Schema)
    (rest : List (Source × Schema)) (req : Req) (errs : List MultiViolation)
    (e : JsError) (h : sch (req.get s) = .threw e) :
    validateAllLoop ((s, sch) :: rest) req errs = validateAllLoop rest req errs
    ∧ ∀ (schemas : List (Source × Schema)) (r r2 : Req) (e2 : JsError),
        validateAll schemas r ≠ .nextErr r2 e2 := by
  constructor
  · simp only [validateAllLoop, h]
  · intro schemas r r2 e2 hc
    rw [validateAll_eq] at hc
    by_cases hE : (validateAllLoop schemas r []).2.isEmpty = true
    · rw [if_pos hE] at hc
      exact MwOutcome.noConfusion hc
    · rw [if_neg hE] at hc
      exact MwOutcome.noConfusion hc

/-- Witness for nonzod_exception_absorbed on a schema whose parse throws
a TypeError. -/
theorem nonzod_exception_absorbed_witness :
    throwingSchema (sampleReq.get .body) =
      .threw { name := "TypeError", message := "Cannot read properties of undefined",
               code := none, stack := none, shape := .plain }
    ∧ (validateAllLoop [(.body, throwingSchema)] sampleReq [] =
        validateAllLoop [] sampleReq []
       ∧ ∀ (schemas : List (Source × Schema)) (r r2 : Req) (e2 : JsError),
           validateAll schemas r ≠ .nextErr r2 e2) :=
  ⟨rfl, nonzod_exception_absorbed .body throwingSchema [] sampleReq []
    { name := "TypeError", message := "Cannot read properties of undefined",
      code := none, stack := none, shape := .plain } rfl⟩

/-- Claim C9: every 400 body sent by validateAll is the fixed envelope
over a violation list whose rendered entries each have exactly the keys
source, field and message (no code key), whereas every 400 body sent by
the single-source validate middleware renders its entries with exactly
the keys field, message and code. -/
theorem multi_violation_fields (schemas : List (Source × Schema)) (req req2 : Req)
    (st : Nat) (b : Json)
    (h : validateAll schemas req = .respond req2 st b) :
    (∃ vs : List MultiViolation,
        b = validateAllBody vs
        ∧ ∀ e ∈ vs.map multiViolationJson, e.keys = ["source", "field", "message"])
    ∧ (∀ (sch : Schema) (s : Source) (r r2 : Req) (st2 : Nat) (b2 : Json),
        validate sch s r = .respond r2 st2 b2 →
        ∃ issues : List ZodIssue,
          b2 = Json.obj [("success", Json.bool false),
                         ("message", Json.str "Validation failed"),
                         ("errors", Json.arr (issues.map formatZodIssue))]
          ∧ ∀ e ∈ issues.map formatZodIssue, e.keys = ["field", "message", "code"]) := by
  constructor
  · rw [validateAll_eq] at h
    by_cases hE : (validateAllLoop schemas req []).2.isEmpty = true
    · rw [if_pos hE] at h
      exact absurd h (fun hc => MwOutcome.noConfusion hc)
    · rw [if_neg hE] at h
      refine ⟨(validateAllLoop schemas req []).2, ?_, ?_⟩
      · injection h with g1 g2 g3
        exact g3.symm
      · intro e he
        obtain ⟨v, _, rfl⟩ := List.mem_map.1 he
        rfl
  · intro sch s r r2 st2 b2 h2
    unfold validate at h2
    cases hp : sch (r.get s) with
    | ok v =>
      rw [hp] at h2
      exact absurd h2 (fun hc => MwOutcome.noConfusion hc)
    | zodFail issues =>
      rw [hp] at h2
      injection h2 with g1 g2 g3
      refine ⟨issues, g3.symm, ?_⟩
      intro e he
      obtain ⟨v, _, rfl⟩ := List.mem_map.1 he
      rfl
    | threw e =>
      rw [hp] at h2
      exact absurd h2 (fun hc => MwOutcome.noConfusion hc)

/-- Witness for multi_violation_fields on a failing params schema. -/
theorem multi_violation_fields_witness :
    validateAll [(.params, failParamsSchema)] sampleReq =
      .respond sampleReq 400
        (validateAllBody (tagViolations .params
          [{ path := ["id"], message := "Required", code := "invalid_type" }]))
    ∧ ((∃ vs : List MultiViolation,
          validateAllBody (tagViolations .params
            [{ path := ["id"], message := "Required", code := "invalid_type" }])
            = validateAllBody vs
          ∧ ∀ e ∈ vs.map multiViolationJson,
              e.keys = ["source", "field", "message"])
       ∧ (∀ (sch : Schema) (s : Source) (r r2 : Req) (st2 : Nat) (b2 : Json),
           validate sch s r = .respond r2 st2 b2 →
           ∃ issues : List ZodIssue,
             b2 = Json.obj [("success", Json.bool false),
                            ("message", Json.str "Validation failed"),
                            ("errors", Json.arr (issues.map formatZodIssue))]
             ∧ ∀ e ∈ issues.map formatZodIssue,
                 e.keys = ["field", "message", "code"])) :=
  ⟨rfl, multi_violation_fields [(.params, failParamsSchema)] sampleReq sampleReq 400
    (validateAllBody (tagViolations .params
      [{ path := ["id"], message := "Required", code := "invalid_type" }])) rfl⟩

/-- Claim C10: when one source fails and another parses successfully in
the same pass, the successful section has already been replaced with its
parsed value when the single 400 response is sent: the responded request
carries the mutation, which is not rolled back. -/
theorem success_mutation_kept_on_failure (s1 s2 : Source) (a b : Schema)
    (req : Req) (issA : List ZodIssue) (v : Json)
    (h1 : a (req.get s1) = .zodFail issA)
    (h2 : b (req.get s2) = .ok v)
    (hA : issA ≠ []) :
    validateAll [(s1, a), (s2, b)] req =
      .respond (req.set s2 v) 400 (validateAllBody (tagViolations s1 issA))
    ∧ (req.set s2 v).get s2 = v := by
  cases issA with
  | nil => exact absurd rfl hA
  | cons ea esa =>
    refine ⟨?_, Req.get_set_self req s2 v⟩
    have hloop : validateAllLoop [(s1, a), (s2, b)] req [] =
        (req.set s2 v, [] ++ tagViolations s1 (ea :: esa)) := by
      simp only [validateAllLoop, h1, h2]
    rw [validateAll_eq, hloop]
    simp [tagViolations]

/-- Witness for success_mutation_kept_on_failure: body fails while query
parses successfully and is replaced before the 400 is sent. -/
theorem success_mutation_kept_on_failure_witness :
    failBodySchema (sampleReq.get .body) =
      .zodFail [{ path := ["name"], message := "Expected string, received number",
                  code := "invalid_type" }]
    ∧ okBodySchema (sampleReq.get .query) = .ok (Json.obj [("name", Json.str "john")])
    ∧ [{ path := ["name"], message := "Expected string, received number",
         code := "invalid_type" }] ≠ ([] : List ZodIssue)
    ∧ (validateAll [(.body, failBodySchema), (.query, okBodySchema)] sampleReq =
        .respond (sampleReq.set .query (Json.obj [("name", Json.str "john")])) 400
          (validateAllBody (tagViolations .body
            [{ path := ["name"], message := "Expected string, received number",
               code := "invalid_type" }]))
       ∧ (sampleReq.set .query (Json.obj [("name", Json.str "john")])).get .query
           = Json.obj [("name", Json.str "john")]) :=
  ⟨rfl, rfl, by decide,
   success_mutation_kept_on_failure .body .query failBodySchema okBodySchema sampleReq
     [{ path := ["name"], message := "Expected string, received number",
        code := "invalid_type" }]
     (Json.obj [("name", Json.str "john")]) rfl rfl (by decide)⟩

end StartupExpress
